import Mathlib

/-!
Shallow embedding of `xbmc/cores/VideoPlayer/Process/ProcessInfo.cpp`
(the session telemetry aggregator `CProcessInfo`) and the external
interfaces it talks to, together with theorems settling the spec claims.

Modelling conventions:
  - C++ `float`/`double` values are modelled as `ℚ` (the claims only use
    ordering and equality of the values, never rounding arithmetic).
  - The externally owned `CDataCacheCore` sink is modelled as a record of
    the last value received on each of its setter channels; the aggregator
    holds `Option CDataCacheCore` for its `m_dataCache` pointer
    (`none` = null pointer).
  - Per-field-group locks make every member function an atomic step, so
    each operation is a pure state transformer on `CProcessInfo`.
  - External enums are modelled with the constructors the source names
    plus an `other` constructor standing for the remaining enumerators;
    external opaque metadata structs carry an abstract payload whose
    default is the C++ value-initialisation `{}`.
  - A dereference of a null `m_dataCache` (possible only in
    `SetDataCache`) is modelled as returning `none`.
-/

/-- External enum `EINTERLACEMETHOD`: the enumerators the source names,
plus `other` for the rest of the (external) enum. -/
inductive EINTERLACEMETHOD where
  | VS_INTERLACEMETHOD_NONE
  | VS_INTERLACEMETHOD_DEINTERLACE
  | VS_INTERLACEMETHOD_DEINTERLACE_HALF
  | other (code : Nat)
deriving DecidableEq

/-- External enum `StreamHdrType`; the source only names `HDR_TYPE_NONE`. -/
inductive StreamHdrType where
  | HDR_TYPE_NONE
  | other (code : Nat)
deriving DecidableEq

/-- External FFmpeg enum `AVColorSpace`; the source only names
`AVCOL_SPC_UNSPECIFIED`. -/
inductive AVColorSpace where
  | AVCOL_SPC_UNSPECIFIED
  | other (code : Nat)
deriving DecidableEq

/-- External FFmpeg enum `AVColorRange`. -/
inductive AVColorRange where
  | AVCOL_RANGE_UNSPECIFIED
  | other (code : Nat)
deriving DecidableEq

/-- External FFmpeg enum `AVColorPrimaries`. -/
inductive AVColorPrimaries where
  | AVCOL_PRI_UNSPECIFIED
  | other (code : Nat)
deriving DecidableEq

/-- External FFmpeg enum `AVColorTransferCharacteristic`. -/
inductive AVColorTransferCharacteristic where
  | AVCOL_TRC_UNSPECIFIED
  | other (code : Nat)
deriving DecidableEq

/-- External FFmpeg enum `AVPixelFormat`; the source only names
`AV_PIX_FMT_YUV420P` (in `GetRenderFormats`). -/
inductive AVPixelFormat where
  | AV_PIX_FMT_YUV420P
  | other (code : Nat)
deriving DecidableEq

/-- External enum `DtsXType`; the source only names `DTS_X_NONE`. -/
inductive DtsXType where
  | DTS_X_NONE
  | other (code : Nat)
deriving DecidableEq

/-- External struct `DOVIFrameMetadata`, opaque to this file; the default
payload models C++ value-initialisation `{}`. -/
structure DOVIFrameMetadata where
  payload : Nat := 0
deriving DecidableEq

/-- External struct `DOVIStreamMetadata`, opaque to this file. -/
structure DOVIStreamMetadata where
  payload : Nat := 0
deriving DecidableEq

/-- External struct `DOVIStreamInfo`, opaque to this file. -/
structure DOVIStreamInfo where
  payload : Nat := 0
deriving DecidableEq

/-- External struct `HDRStaticMetadataInfo`, opaque to this file. -/
structure HDRStaticMetadataInfo where
  payload : Nat := 0
deriving DecidableEq

/-- External settings object `CVideoSettings`, opaque to this file. -/
structure CVideoSettings where
  payload : Nat := 0
deriving DecidableEq

/-- External constant `DOLBY_VISION_OUTPUT_MODE_BYPASS` (vendor header,
outside this excerpt); its numeric value is irrelevant to the claims. -/
def DOLBY_VISION_OUTPUT_MODE_BYPASS : Nat := 5

/-- External `CRenderInfo`: only its deinterlacing-capability list is read
by `ProcessInfo.cpp` (`UpdateDeinterlacingMethods`, `UpdateRenderInfo`). -/
structure CRenderInfo where
  m_deintMethods : List EINTERLACEMETHOD := []
deriving DecidableEq

/-- External sink `CDataCacheCore`, modelled as the record of the last
value received on each setter channel used by `ProcessInfo.cpp` (plus the
realtime channel of the cache interface, which the spec lists among the
mirrored playback state). `SetSpeed(tempo, speed)` of the cache takes two
arguments, modelled as the two channels `speedTempo` and `speedSpeed`. -/
structure CDataCacheCore where
  videoPts : ℚ
  videoDecoderName : String
  videoIsHWDecoder : Bool
  videoDeintMethod : String
  videoPixelFormat : String
  videoWidth : Int
  videoHeight : Int
  videoFps : ℚ
  videoDAR : ℚ
  stateSeeking : Bool
  videoStereoMode : String
  videoBitDepth : Int
  videoHdrType : StreamHdrType
  videoSourceHdrType : StreamHdrType
  videoSourceAdditionalHdrType : StreamHdrType
  videoColorSpace : AVColorSpace
  videoColorRange : AVColorRange
  videoColorPrimaries : AVColorPrimaries
  videoColorTransferCharacteristic : AVColorTransferCharacteristic
  videoDoViFrameMetadata : DOVIFrameMetadata
  videoDoViStreamMetadata : DOVIStreamMetadata
  videoDoViStreamInfo : DOVIStreamInfo
  videoSourceDoViStreamInfo : DOVIStreamInfo
  videoDoViCodecFourCC : String
  videoHDRStaticMetadataInfo : HDRStaticMetadataInfo
  videoVS10Mode : Nat
  videoLiveBitRate : ℚ
  videoQueueLevel : Int
  videoQueueDataLevel : Int
  videoInterlaced : Bool
  audioDecoderName : String
  audioChannels : String
  audioSampleRate : Int
  audioBitsPerSample : Int
  audioIsDolbyAtmos : Bool
  audioDtsXType : DtsXType
  audioLiveBitRate : ℚ
  audioQueueLevel : Int
  audioQueueDataLevel : Int
  renderClockSync : Bool
  stateRealtime : Bool
  speedTempo : ℚ
  speedSpeed : ℚ
  frameAdvance : Bool
  guiRender : Bool
  videoRender : Bool
  playTimesStart : Int
  playTimesCurrent : Int
  playTimesMin : Int
  playTimesMax : Int
  seekFinishedOffset : Int
deriving DecidableEq

/-- The aggregator state: every member variable of `CProcessInfo` that
`ProcessInfo.cpp` reads or writes, with the cache pointer as an `Option`. -/
structure CProcessInfo where
  m_dataCache : Option CDataCacheCore
  m_videoPts : ℚ
  m_videoIsHWDecoder : Bool
  m_videoDecoderName : String
  m_videoDeintMethod : String
  m_videoPixelFormat : String
  m_videoStereoMode : String
  m_videoWidth : Int
  m_videoHeight : Int
  m_videoFPS : ℚ
  m_videoDAR : ℚ
  m_videoBitDepth : Int
  m_videoHdrType : StreamHdrType
  m_videoSourceHdrType : StreamHdrType
  m_videoSourceAdditionalHdrType : StreamHdrType
  m_videoColorSpace : AVColorSpace
  m_videoColorRange : AVColorRange
  m_videoColorPrimaries : AVColorPrimaries
  m_videoColorTransferCharacteristic : AVColorTransferCharacteristic
  m_videoDoViFrameMetadata : DOVIFrameMetadata
  m_videoDoViStreamMetadata : DOVIStreamMetadata
  m_videoDoViStreamInfo : DOVIStreamInfo
  m_videoSourceDoViStreamInfo : DOVIStreamInfo
  m_videoDoViCodecFourCC : String
  m_videoHDRStaticMetadataInfo : HDRStaticMetadataInfo
  m_videoVS10Mode : Nat
  m_videoLiveBitRate : ℚ
  m_videoQueueLevel : Int
  m_videoQueueDataLevel : Int
  m_videoIsInterlaced : Bool
  m_deintMethods : List EINTERLACEMETHOD
  m_deintMethodDefault : EINTERLACEMETHOD
  m_stateSeeking : Bool
  m_pixFormats : List AVPixelFormat
  m_renderInfo : CRenderInfo
  m_audioDecoderName : String
  m_audioChannels : String
  m_audioSampleRate : Int
  m_audioBitsPerSample : Int
  m_audioIsDolbyAtmos : Bool
  m_audioDtsXType : DtsXType
  m_audioLiveBitRate : ℚ
  m_audioQueueLevel : Int
  m_audioQueueDataLevel : Int
  m_isClockSync : Bool
  m_renderBufQueued : Int
  m_renderBufDiscard : Int
  m_renderBufFree : Int
  m_realTimeStream : Bool
  m_speed : ℚ
  m_newSpeed : ℚ
  m_frameAdvance : Bool
  m_tempo : ℚ
  m_newTempo : ℚ
  m_levelVQ : Int
  m_renderGuiLayer : Bool
  m_renderVideoLayer : Bool
  m_startTime : Int
  m_time : Int
  m_timeMin : Int
  m_timeMax : Int
  m_videoSettings : CVideoSettings
deriving DecidableEq

namespace CProcessInfo

/-- The guarded forwarding idiom `if (m_dataCache) m_dataCache->...`:
apply `f` to the bound cache when one is bound, do nothing otherwise. -/
def withCache (p : CProcessInfo) (f : CDataCacheCore → CDataCacheCore) : CProcessInfo :=
  { p with m_dataCache := p.m_dataCache.map f }

/-- `CProcessInfo::RegisterProcessControl`: clears the global registry map
and inserts the one new entry. The factory type is a parameter (the C++
value type is a function pointer returning `CProcessInfo*`). -/
def RegisterProcessControl {α : Type} (m_processControls : List (String × α))
    (id : String) (createFunc : α) : List (String × α) :=
  let _ := m_processControls
  [(id, createFunc)]

/-- `CProcessInfo::CreateInstance`: walk the registry, return the first
factory result that is non-null, else fall back to the base instance
(`new CProcessInfo()`). -/
def CreateInstance {α : Type} (controls : List (String × (Unit → Option α))) (base : α) : α :=
  match controls with
  | [] => base
  | (_, f) :: rest =>
    match f () with
    | some ret => ret
    | none => CreateInstance rest base

/-- `CProcessInfo::ResetVideoCodecInfo`: restore the video-group fields it
assigns to their defaults, then forward the listed subset to the cache
when one is bound (note: the mirror block does not forward the interlaced
flag, and the reset block does not touch `m_videoDoViStreamMetadata`). -/
def ResetVideoCodecInfo (p : CProcessInfo) : CProcessInfo :=
  let q := { p with
    m_videoPts := 0
    m_videoIsHWDecoder := false
    m_videoDecoderName := "unknown"
    m_videoDeintMethod := "unknown"
    m_videoPixelFormat := "unknown"
    m_videoStereoMode := ""
    m_videoWidth := 0
    m_videoHeight := 0
    m_videoFPS := 0
    m_videoDAR := 0
    m_videoBitDepth := 0
    m_videoHdrType := StreamHdrType.HDR_TYPE_NONE
    m_videoSourceHdrType := StreamHdrType.HDR_TYPE_NONE
    m_videoSourceAdditionalHdrType := StreamHdrType.HDR_TYPE_NONE
    m_videoColorSpace := AVColorSpace.AVCOL_SPC_UNSPECIFIED
    m_videoColorRange := AVColorRange.AVCOL_RANGE_UNSPECIFIED
    m_videoColorPrimaries := AVColorPrimaries.AVCOL_PRI_UNSPECIFIED
    m_videoColorTransferCharacteristic := AVColorTransferCharacteristic.AVCOL_TRC_UNSPECIFIED
    m_videoDoViFrameMetadata := {}
    m_videoDoViStreamInfo := {}
    m_videoSourceDoViStreamInfo := {}
    m_videoDoViCodecFourCC := ""
    m_videoHDRStaticMetadataInfo := {}
    m_videoVS10Mode := DOLBY_VISION_OUTPUT_MODE_BYPASS
    m_videoLiveBitRate := 0
    m_videoQueueLevel := 0
    m_videoQueueDataLevel := 0
    m_videoIsInterlaced := false
    m_deintMethods := [EINTERLACEMETHOD.VS_INTERLACEMETHOD_NONE]
    m_deintMethodDefault := EINTERLACEMETHOD.VS_INTERLACEMETHOD_NONE
    m_stateSeeking := false }
  q.withCache (fun c => { c with
    videoPts := q.m_videoPts
    videoDecoderName := q.m_videoDecoderName
    videoIsHWDecoder := q.m_videoIsHWDecoder
    videoDeintMethod := q.m_videoDeintMethod
    videoPixelFormat := q.m_videoPixelFormat
    videoWidth := q.m_videoWidth
    videoHeight := q.m_videoHeight
    videoFps := q.m_videoFPS
    videoDAR := q.m_videoDAR
    stateSeeking := q.m_stateSeeking
    videoStereoMode := q.m_videoStereoMode
    videoBitDepth := q.m_videoBitDepth
    videoHdrType := q.m_videoHdrType
    videoSourceHdrType := q.m_videoSourceHdrType
    videoSourceAdditionalHdrType := q.m_videoSourceAdditionalHdrType
    videoColorSpace := q.m_videoColorSpace
    videoColorRange := q.m_videoColorRange
    videoColorPrimaries := q.m_videoColorPrimaries
    videoColorTransferCharacteristic := q.m_videoColorTransferCharacteristic
    videoDoViFrameMetadata := q.m_videoDoViFrameMetadata
    videoDoViStreamInfo := q.m_videoDoViStreamInfo
    videoSourceDoViStreamInfo := q.m_videoSourceDoViStreamInfo
    videoDoViCodecFourCC := q.m_videoDoViCodecFourCC
    videoHDRStaticMetadataInfo := q.m_videoHDRStaticMetadataInfo
    videoVS10Mode := q.m_videoVS10Mode
    videoLiveBitRate := q.m_videoLiveBitRate
    videoQueueLevel := q.m_videoQueueLevel
    videoQueueDataLevel := q.m_videoQueueDataLevel })

/-- `CProcessInfo::SetDataCache`: rebind the cache pointer, reset the
video-codec group, force both render-layer flags to false, then forward
the two flags through `m_dataCache->...` with no null guard — on a null
`cache` that dereference is undefined behaviour, modelled as `none`. -/
def SetDataCache (p : CProcessInfo) (cache : Option CDataCacheCore) : Option CProcessInfo :=
  let q := { p with m_dataCache := cache }
  let q := q.ResetVideoCodecInfo
  let q := { q with m_renderGuiLayer := false, m_renderVideoLayer := false }
  match q.m_dataCache with
  | none => none
  | some c =>
    let c := { c with guiRender := q.m_renderGuiLayer }
    let c := { c with videoRender := q.m_renderVideoLayer }
    some { q with m_dataCache := some c }

/-- `CProcessInfo::SetVideoPts`. -/
def SetVideoPts (p : CProcessInfo) (pts : ℚ) : CProcessInfo :=
  let q := { p with m_videoPts := pts }
  q.withCache (fun c => { c with videoPts := q.m_videoPts })

/-- `CProcessInfo::GetVideoPts`. -/
def GetVideoPts (p : CProcessInfo) : ℚ :=
  p.m_videoPts

/-- `CProcessInfo::SetVideoDecoderName`. -/
def SetVideoDecoderName (p : CProcessInfo) (name : String) (isHw : Bool) : CProcessInfo :=
  let q := { p with m_videoIsHWDecoder := isHw, m_videoDecoderName := name }
  q.withCache (fun c =>
    { c with videoDecoderName := q.m_videoDecoderName, videoIsHWDecoder := q.m_videoIsHWDecoder })

/-- `CProcessInfo::GetVideoDecoderName`. -/
def GetVideoDecoderName (p : CProcessInfo) : String :=
  p.m_videoDecoderName

/-- `CProcessInfo::IsVideoHwDecoder`. -/
def IsVideoHwDecoder (p : CProcessInfo) : Bool :=
  p.m_videoIsHWDecoder

/-- `CProcessInfo::SetVideoDeintMethod`. -/
def SetVideoDeintMethod (p : CProcessInfo) (method : String) : CProcessInfo :=
  let q := { p with m_videoDeintMethod := method }
  q.withCache (fun c => { c with videoDeintMethod := q.m_videoDeintMethod })

/-- `CProcessInfo::GetVideoDeintMethod`. -/
def GetVideoDeintMethod (p : CProcessInfo) : String :=
  p.m_videoDeintMethod

/-- `CProcessInfo::SetVideoPixelFormat`. -/
def SetVideoPixelFormat (p : CProcessInfo) (pixFormat : String) : CProcessInfo :=
  let q := { p with m_videoPixelFormat := pixFormat }
  q.withCache (fun c => { c with videoPixelFormat := q.m_videoPixelFormat })

/-- `CProcessInfo::GetVideoPixelFormat`. -/
def GetVideoPixelFormat (p : CProcessInfo) : String :=
  p.m_videoPixelFormat

/-- `CProcessInfo::SetVideoStereoMode`. -/
def SetVideoStereoMode (p : CProcessInfo) (mode : String) : CProcessInfo :=
  let q := { p with m_videoStereoMode := mode }
  q.withCache (fun c => { c with videoStereoMode := q.m_videoStereoMode })

/-- `CProcessInfo::GetVideoStereoMode`. -/
def GetVideoStereoMode (p : CProcessInfo) : String :=
  p.m_videoStereoMode

/-- `CProcessInfo::SetVideoDimensions`. -/
def SetVideoDimensions (p : CProcessInfo) (width height : Int) : CProcessInfo :=
  let q := { p with m_videoWidth := width, m_videoHeight := height }
  q.withCache (fun c => { c with videoWidth := q.m_videoWidth, videoHeight := q.m_videoHeight })

/-- `CProcessInfo::GetVideoDimensions` (the two out-parameters as a pair). -/
def GetVideoDimensions (p : CProcessInfo) : Int × Int :=
  (p.m_videoWidth, p.m_videoHeight)

/-- `CProcessInfo::SetVideoBitDepth`. -/
def SetVideoBitDepth (p : CProcessInfo) (bitDepth : Int) : CProcessInfo :=
  let q := { p with m_videoBitDepth := bitDepth }
  q.withCache (fun c => { c with videoBitDepth := q.m_videoBitDepth })

/-- `CProcessInfo::GetVideoBitDepth`. -/
def GetVideoBitDepth (p : CProcessInfo) : Int :=
  p.m_videoBitDepth

/-- `CProcessInfo::SetVideoHdrType`. -/
def SetVideoHdrType (p : CProcessInfo) (hdrType : StreamHdrType) : CProcessInfo :=
  let q := { p with m_videoHdrType := hdrType }
  q.withCache (fun c => { c with videoHdrType := q.m_videoHdrType })

/-- `CProcessInfo::GetVideoHdrType`. -/
def GetVideoHdrType (p : CProcessInfo) : StreamHdrType :=
  p.m_videoHdrType

/-- `CProcessInfo::SetVideoSourceHdrType`. -/
def SetVideoSourceHdrType (p : CProcessInfo) (hdrType : StreamHdrType) : CProcessInfo :=
  let q := { p with m_videoSourceHdrType := hdrType }
  q.withCache (fun c => { c with videoSourceHdrType := q.m_videoSourceHdrType })

/-- `CProcessInfo::GetVideoSourceHdrType`. -/
def GetVideoSourceHdrType (p : CProcessInfo) : StreamHdrType :=
  p.m_videoSourceHdrType

/-- `CProcessInfo::SetVideoSourceAdditionalHdrType`. -/
def SetVideoSourceAdditionalHdrType (p : CProcessInfo) (hdrType : StreamHdrType) : CProcessInfo :=
  let q := { p with m_videoSourceAdditionalHdrType := hdrType }
  q.withCache (fun c => { c with videoSourceAdditionalHdrType := q.m_videoSourceAdditionalHdrType })

/-- `CProcessInfo::GetVideoSourceAdditionalHdrType`. -/
def GetVideoSourceAdditionalHdrType (p : CProcessInfo) : StreamHdrType :=
  p.m_videoSourceAdditionalHdrType

/-- `CProcessInfo::SetVideoColorSpace`. -/
def SetVideoColorSpace (p : CProcessInfo) (colorSpace : AVColorSpace) : CProcessInfo :=
  let q := { p with m_videoColorSpace := colorSpace }
  q.withCache (fun c => { c with videoColorSpace := q.m_videoColorSpace })

/-- `CProcessInfo::GetVideoColorSpace`. -/
def GetVideoColorSpace (p : CProcessInfo) : AVColorSpace :=
  p.m_videoColorSpace

/-- `CProcessInfo::SetVideoColorRange`. -/
def SetVideoColorRange (p : CProcessInfo) (colorRange : AVColorRange) : CProcessInfo :=
  let q := { p with m_videoColorRange := colorRange }
  q.withCache (fun c => { c with videoColorRange := q.m_videoColorRange })

/-- `CProcessInfo::GetVideoColorRange`. -/
def GetVideoColorRange (p : CProcessInfo) : AVColorRange :=
  p.m_videoColorRange

/-- `CProcessInfo::SetVideoColorPrimaries`. -/
def SetVideoColorPrimaries (p : CProcessInfo) (colorPrimaries : AVColorPrimaries) : CProcessInfo :=
  let q := { p with m_videoColorPrimaries := colorPrimaries }
  q.withCache (fun c => { c with videoColorPrimaries := q.m_videoColorPrimaries })

/-- `CProcessInfo::GetVideoColorPrimaries`. -/
def GetVideoColorPrimaries (p : CProcessInfo) : AVColorPrimaries :=
  p.m_videoColorPrimaries

/-- `CProcessInfo::SetVideoColorTransferCharacteristic`. -/
def SetVideoColorTransferCharacteristic (p : CProcessInfo)
    (colorTransferCharacteristic : AVColorTransferCharacteristic) : CProcessInfo :=
  let q := { p with m_videoColorTransferCharacteristic := colorTransferCharacteristic }
  q.withCache (fun c =>
    { c with videoColorTransferCharacteristic := q.m_videoColorTransferCharacteristic })

/-- `CProcessInfo::GetVideoColorTransferCharacteristic`. -/
def GetVideoColorTransferCharacteristic (p : CProcessInfo) : AVColorTransferCharacteristic :=
  p.m_videoColorTransferCharacteristic

/-- `CProcessInfo::SetVideoDoViFrameMetadata`. -/
def SetVideoDoViFrameMetadata (p : CProcessInfo) (value : DOVIFrameMetadata) : CProcessInfo :=
  let q := { p with m_videoDoViFrameMetadata := value }
  q.withCache (fun c => { c with videoDoViFrameMetadata := q.m_videoDoViFrameMetadata })

/-- `CProcessInfo::GetVideoDoViFrameMetadata`. -/
def GetVideoDoViFrameMetadata (p : CProcessInfo) : DOVIFrameMetadata :=
  p.m_videoDoViFrameMetadata

/-- `CProcessInfo::SetVideoDoViStreamMetadata`. -/
def SetVideoDoViStreamMetadata (p : CProcessInfo) (value : DOVIStreamMetadata) : CProcessInfo :=
  let q := { p with m_videoDoViStreamMetadata := value }
  q.withCache (fun c => { c with videoDoViStreamMetadata := q.m_videoDoViStreamMetadata })

/-- `CProcessInfo::GetVideoDoViStreamMetadata`. -/
def GetVideoDoViStreamMetadata (p : CProcessInfo) : DOVIStreamMetadata :=
  p.m_videoDoViStreamMetadata

/-- `CProcessInfo::SetVideoDoViStreamInfo`. -/
def SetVideoDoViStreamInfo (p : CProcessInfo) (value : DOVIStreamInfo) : CProcessInfo :=
  let q := { p with m_videoDoViStreamInfo := value }
  q.withCache (fun c => { c with videoDoViStreamInfo := q.m_videoDoViStreamInfo })

/-- `CProcessInfo::GetVideoDoViStreamInfo`. -/
def GetVideoDoViStreamInfo (p : CProcessInfo) : DOVIStreamInfo :=
  p.m_videoDoViStreamInfo

/-- `CProcessInfo::SetVideoSourceDoViStreamInfo`. -/
def SetVideoSourceDoViStreamInfo (p : CProcessInfo) (value : DOVIStreamInfo) : CProcessInfo :=
  let q := { p with m_videoSourceDoViStreamInfo := value }
  q.withCache (fun c => { c with videoSourceDoViStreamInfo := q.m_videoSourceDoViStreamInfo })

/-- `CProcessInfo::GetVideoSourceDoViStreamInfo`. -/
def GetVideoSourceDoViStreamInfo (p : CProcessInfo) : DOVIStreamInfo :=
  p.m_videoSourceDoViStreamInfo

/-- `CProcessInfo::SetVideoDoViCodecFourCC`. -/
def SetVideoDoViCodecFourCC (p : CProcessInfo) (codecFourCC : String) : CProcessInfo :=
  let q := { p with m_videoDoViCodecFourCC := codecFourCC }
  q.withCache (fun c => { c with videoDoViCodecFourCC := q.m_videoDoViCodecFourCC })

/-- `CProcessInfo::GetVideoDoViCodecFourCC`. -/
def GetVideoDoViCodecFourCC (p : CProcessInfo) : String :=
  p.m_videoDoViCodecFourCC

/-- `CProcessInfo::SetVideoHDRStaticMetadataInfo`. -/
def SetVideoHDRStaticMetadataInfo (p : CProcessInfo) (value : HDRStaticMetadataInfo) : CProcessInfo :=
  let q := { p with m_videoHDRStaticMetadataInfo := value }
  q.withCache (fun c => { c with videoHDRStaticMetadataInfo := q.m_videoHDRStaticMetadataInfo })

/-- `CProcessInfo::GetVideoHDRStaticMetadataInfo`. -/
def GetVideoHDRStaticMetadataInfo (p : CProcessInfo) : HDRStaticMetadataInfo :=
  p.m_videoHDRStaticMetadataInfo

/-- `CProcessInfo::SetVideoVS10Mode`. -/
def SetVideoVS10Mode (p : CProcessInfo) (vs10Mode : Nat) : CProcessInfo :=
  let q := { p with m_videoVS10Mode := vs10Mode }
  q.withCache (fun c => { c with videoVS10Mode := q.m_videoVS10Mode })

/-- `CProcessInfo::GetVideoVS10Mode`. -/
def GetVideoVS10Mode (p : CProcessInfo) : Nat :=
  p.m_videoVS10Mode

/-- `CProcessInfo::SetVideoLiveBitRate`. -/
def SetVideoLiveBitRate (p : CProcessInfo) (bitRate : ℚ) : CProcessInfo :=
  let q := { p with m_videoLiveBitRate := bitRate }
  q.withCache (fun c => { c with videoLiveBitRate := q.m_videoLiveBitRate })

/-- `CProcessInfo::GetVideoLiveBitRate`. -/
def GetVideoLiveBitRate (p : CProcessInfo) : ℚ :=
  p.m_videoLiveBitRate

/-- `CProcessInfo::SetVideoQueueLevel`. -/
def SetVideoQueueLevel (p : CProcessInfo) (level : Int) : CProcessInfo :=
  let q := { p with m_videoQueueLevel := level }
  q.withCache (fun c => { c with videoQueueLevel := q.m_videoQueueLevel })

/-- `CProcessInfo::GetVideoQueueLevel`. -/
def GetVideoQueueLevel (p : CProcessInfo) : Int :=
  p.m_videoQueueLevel

/-- `CProcessInfo::SetVideoQueueDataLevel`. -/
def SetVideoQueueDataLevel (p : CProcessInfo) (level : Int) : CProcessInfo :=
  let q := { p with m_videoQueueDataLevel := level }
  q.withCache (fun c => { c with videoQueueDataLevel := q.m_videoQueueDataLevel })

/-- `CProcessInfo::GetVideoQueueDataLevel`. -/
def GetVideoQueueDataLevel (p : CProcessInfo) : Int :=
  p.m_videoQueueDataLevel

/-- `CProcessInfo::SetVideoFps`. -/
def SetVideoFps (p : CProcessInfo) (fps : ℚ) : CProcessInfo :=
  let q := { p with m_videoFPS := fps }
  q.withCache (fun c => { c with videoFps := q.m_videoFPS })

/-- `CProcessInfo::GetVideoFps`. -/
def GetVideoFps (p : CProcessInfo) : ℚ :=
  p.m_videoFPS

/-- `CProcessInfo::SetVideoDAR`. -/
def SetVideoDAR (p : CProcessInfo) (dar : ℚ) : CProcessInfo :=
  let q := { p with m_videoDAR := dar }
  q.withCache (fun c => { c with videoDAR := q.m_videoDAR })

/-- `CProcessInfo::GetVideoDAR`. -/
def GetVideoDAR (p : CProcessInfo) : ℚ :=
  p.m_videoDAR

/-- `CProcessInfo::SetVideoInterlaced` (note: forwards the argument
`interlaced`, not the stored field — same value). -/
def SetVideoInterlaced (p : CProcessInfo) (interlaced : Bool) : CProcessInfo :=
  let q := { p with m_videoIsInterlaced := interlaced }
  q.withCache (fun c => { c with videoInterlaced := interlaced })

/-- `CProcessInfo::GetVideoInterlaced`. -/
def GetVideoInterlaced (p : CProcessInfo) : Bool :=
  p.m_videoIsInterlaced

/-- `CProcessInfo::Supports`: linear membership search
(`std::find`) over the current supported-methods list. -/
def Supports (p : CProcessInfo) (method : EINTERLACEMETHOD) : Bool :=
  decide (method ∈ p.m_deintMethods)

/-- The merge loop shared by `UpdateDeinterlacingMethods` and
`UpdateRenderInfo`: walk the render-reported capabilities and push_back
each one the evolving list does not yet contain. -/
def mergeDeintMethods (methods render : List EINTERLACEMETHOD) : List EINTERLACEMETHOD :=
  render.foldl (fun acc deint => if deint ∈ acc then acc else acc ++ [deint]) methods

/-- `CProcessInfo::UpdateDeinterlacingMethods`: replace the list with the
caller-supplied one, merge in the render-reported capabilities, then
push_front `VS_INTERLACEMETHOD_NONE` when it is not already present. -/
def UpdateDeinterlacingMethods (p : CProcessInfo) (methods : List EINTERLACEMETHOD) : CProcessInfo :=
  let merged := mergeDeintMethods methods p.m_renderInfo.m_deintMethods
  if EINTERLACEMETHOD.VS_INTERLACEMETHOD_NONE ∈ merged then
    { p with m_deintMethods := merged }
  else
    { p with m_deintMethods := EINTERLACEMETHOD.VS_INTERLACEMETHOD_NONE :: merged }

/-- `CProcessInfo::GetFallbackDeintMethod` (base implementation). -/
def GetFallbackDeintMethod (_p : CProcessInfo) : EINTERLACEMETHOD :=
  EINTERLACEMETHOD.VS_INTERLACEMETHOD_DEINTERLACE

/-- `CProcessInfo::SetDeinterlacingMethodDefault`. -/
def SetDeinterlacingMethodDefault (p : CProcessInfo) (method : EINTERLACEMETHOD) : CProcessInfo :=
  { p with m_deintMethodDefault := method }

/-- `CProcessInfo::GetDeinterlacingMethodDefault`. -/
def GetDeinterlacingMethodDefault (p : CProcessInfo) : EINTERLACEMETHOD :=
  p.m_deintMethodDefault

/-- `CProcessInfo::SetSwDeinterlacingMethods`. -/
def SetSwDeinterlacingMethods (p : CProcessInfo) : CProcessInfo :=
  let methods := [EINTERLACEMETHOD.VS_INTERLACEMETHOD_NONE,
    EINTERLACEMETHOD.VS_INTERLACEMETHOD_DEINTERLACE,
    EINTERLACEMETHOD.VS_INTERLACEMETHOD_DEINTERLACE_HALF]
  let q := p.UpdateDeinterlacingMethods methods
  q.SetDeinterlacingMethodDefault EINTERLACEMETHOD.VS_INTERLACEMETHOD_DEINTERLACE

/-- `CProcessInfo::GetRenderFormats` (base implementation): the fallback
render-format list, the singleton `[AV_PIX_FMT_YUV420P]`. -/
def GetRenderFormats (_p : CProcessInfo) : List AVPixelFormat :=
  [AVPixelFormat.AV_PIX_FMT_YUV420P]

/-- `CProcessInfo::GetPixFormats`: the stored list, or the render-format
fallback when nothing (or an empty list) has been stored. -/
def GetPixFormats (p : CProcessInfo) : List AVPixelFormat :=
  if p.m_pixFormats = [] then p.GetRenderFormats else p.m_pixFormats

/-- `CProcessInfo::SetPixFormats` (stores only; no cache forwarding). -/
def SetPixFormats (p : CProcessInfo) (formats : List AVPixelFormat) : CProcessInfo :=
  { p with m_pixFormats := formats }

/-- `CProcessInfo::ResetAudioCodecInfo` (note: the source forwards
`m_audioQueueLevel` on the queue-data-level channel; both are zero). -/
def ResetAudioCodecInfo (p : CProcessInfo) : CProcessInfo :=
  let q := { p with
    m_audioDecoderName := "unknown"
    m_audioChannels := "unknown"
    m_audioSampleRate := 0
    m_audioBitsPerSample := 0
    m_audioIsDolbyAtmos := false
    m_audioDtsXType := DtsXType.DTS_X_NONE
    m_audioLiveBitRate := 0
    m_audioQueueLevel := 0
    m_audioQueueDataLevel := 0 }
  q.withCache (fun c => { c with
    audioDecoderName := q.m_audioDecoderName
    audioChannels := q.m_audioChannels
    audioSampleRate := q.m_audioSampleRate
    audioBitsPerSample := q.m_audioBitsPerSample
    audioIsDolbyAtmos := q.m_audioIsDolbyAtmos
    audioDtsXType := q.m_audioDtsXType
    audioLiveBitRate := q.m_audioLiveBitRate
    audioQueueLevel := q.m_audioQueueLevel
    audioQueueDataLevel := q.m_audioQueueLevel })

/-- `CProcessInfo::SetAudioDecoderName`. -/
def SetAudioDecoderName (p : CProcessInfo) (name : String) : CProcessInfo :=
  let q := { p with m_audioDecoderName := name }
  q.withCache (fun c => { c with audioDecoderName := q.m_audioDecoderName })

/-- `CProcessInfo::GetAudioDecoderName`. -/
def GetAudioDecoderName (p : CProcessInfo) : String :=
  p.m_audioDecoderName

/-- `CProcessInfo::SetAudioChannels`. -/
def SetAudioChannels (p : CProcessInfo) (channels : String) : CProcessInfo :=
  let q := { p with m_audioChannels := channels }
  q.withCache (fun c => { c with audioChannels := q.m_audioChannels })

/-- `CProcessInfo::GetAudioChannels`. -/
def GetAudioChannels (p : CProcessInfo) : String :=
  p.m_audioChannels

/-- `CProcessInfo::SetAudioSampleRate`. -/
def SetAudioSampleRate (p : CProcessInfo) (sampleRate : Int) : CProcessInfo :=
  let q := { p with m_audioSampleRate := sampleRate }
  q.withCache (fun c => { c with audioSampleRate := q.m_audioSampleRate })

/-- `CProcessInfo::GetAudioSampleRate`. -/
def GetAudioSampleRate (p : CProcessInfo) : Int :=
  p.m_audioSampleRate

/-- `CProcessInfo::SetAudioBitsPerSample`. -/
def SetAudioBitsPerSample (p : CProcessInfo) (bitsPerSample : Int) : CProcessInfo :=
  let q := { p with m_audioBitsPerSample := bitsPerSample }
  q.withCache (fun c => { c with audioBitsPerSample := q.m_audioBitsPerSample })

/-- `CProcessInfo::GetAudioBitsPerSample`. -/
def GetAudioBitsPerSample (p : CProcessInfo) : Int :=
  p.m_audioBitsPerSample

/-- `CProcessInfo::SetAudioIsDolbyAtmos`. -/
def SetAudioIsDolbyAtmos (p : CProcessInfo) (isDolbyAtmos : Bool) : CProcessInfo :=
  let q := { p with m_audioIsDolbyAtmos := isDolbyAtmos }
  q.withCache (fun c => { c with audioIsDolbyAtmos := q.m_audioIsDolbyAtmos })

/-- `CProcessInfo::GetAudioIsDolbyAtmos`. -/
def GetAudioIsDolbyAtmos (p : CProcessInfo) : Bool :=
  p.m_audioIsDolbyAtmos

/-- `CProcessInfo::SetAudioDtsXType`. -/
def SetAudioDtsXType (p : CProcessInfo) (dtsXType : DtsXType) : CProcessInfo :=
  let q := { p with m_audioDtsXType := dtsXType }
  q.withCache (fun c => { c with audioDtsXType := q.m_audioDtsXType })

/-- `CProcessInfo::GetAudioDtsXType`. -/
def GetAudioDtsXType (p : CProcessInfo) : DtsXType :=
  p.m_audioDtsXType

/-- `CProcessInfo::SetAudioLiveBitRate`. -/
def SetAudioLiveBitRate (p : CProcessInfo) (bitRate : ℚ) : CProcessInfo :=
  let q := { p with m_audioLiveBitRate := bitRate }
  q.withCache (fun c => { c with audioLiveBitRate := q.m_audioLiveBitRate })

/-- `CProcessInfo::GetAudioLiveBitRate`. -/
def GetAudioLiveBitRate (p : CProcessInfo) : ℚ :=
  p.m_audioLiveBitRate

/-- `CProcessInfo::SetAudioQueueLevel`. -/
def SetAudioQueueLevel (p : CProcessInfo) (level : Int) : CProcessInfo :=
  let q := { p with m_audioQueueLevel := level }
  q.withCache (fun c => { c with audioQueueLevel := q.m_audioQueueLevel })

/-- `CProcessInfo::GetAudioQueueLevel`. -/
def GetAudioQueueLevel (p : CProcessInfo) : Int :=
  p.m_audioQueueLevel

/-- `CProcessInfo::SetAudioQueueDataLevel`. -/
def SetAudioQueueDataLevel (p : CProcessInfo) (level : Int) : CProcessInfo :=
  let q := { p with m_audioQueueDataLevel := level }
  q.withCache (fun c => { c with audioQueueDataLevel := q.m_audioQueueDataLevel })

/-- `CProcessInfo::GetAudioQueueDataLevel`. -/
def GetAudioQueueDataLevel (p : CProcessInfo) : Int :=
  p.m_audioQueueDataLevel

/-- `CProcessInfo::SetRenderClockSync` (forwards the argument). -/
def SetRenderClockSync (p : CProcessInfo) (enabled : Bool) : CProcessInfo :=
  let q := { p with m_isClockSync := enabled }
  q.withCache (fun c => { c with renderClockSync := enabled })

/-- `CProcessInfo::IsRenderClockSync`. -/
def IsRenderClockSync (p : CProcessInfo) : Bool :=
  p.m_isClockSync

/-- `CProcessInfo::UpdateRenderInfo`: store the render info, then merge
its deinterlacing capabilities into the supported-methods list (no
`NONE`-fronting here). -/
def UpdateRenderInfo (p : CProcessInfo) (info : CRenderInfo) : CProcessInfo :=
  let q := { p with m_renderInfo := info }
  { q with m_deintMethods := mergeDeintMethods q.m_deintMethods q.m_renderInfo.m_deintMethods }

/-- `CProcessInfo::UpdateRenderBuffers`. -/
def UpdateRenderBuffers (p : CProcessInfo) (queued discard free : Int) : CProcessInfo :=
  { p with m_renderBufQueued := queued, m_renderBufDiscard := discard, m_renderBufFree := free }

/-- `CProcessInfo::GetRenderBuffers` (the three out-parameters as a triple). -/
def GetRenderBuffers (p : CProcessInfo) : Int × Int × Int :=
  (p.m_renderBufQueued, p.m_renderBufDiscard, p.m_renderBufFree)

/-- `CProcessInfo::SeekFinished` (forwards only; no state of its own). -/
def SeekFinished (p : CProcessInfo) (offset : Int) : CProcessInfo :=
  p.withCache (fun c => { c with seekFinishedOffset := offset })

/-- `CProcessInfo::SetStateSeeking` (forwards the argument). -/
def SetStateSeeking (p : CProcessInfo) (active : Bool) : CProcessInfo :=
  let q := { p with m_stateSeeking := active }
  q.withCache (fun c => { c with stateSeeking := active })

/-- `CProcessInfo::IsSeeking`. -/
def IsSeeking (p : CProcessInfo) : Bool :=
  p.m_stateSeeking

/-- `CProcessInfo::SetStateRealtime`: stores the flag only — unlike the
other setters it does not forward anything to the cache. -/
def SetStateRealtime (p : CProcessInfo) (state : Bool) : CProcessInfo :=
  { p with m_realTimeStream := state }

/-- `CProcessInfo::IsRealtimeStream`. -/
def IsRealtimeStream (p : CProcessInfo) : Bool :=
  p.m_realTimeStream

/-- `CProcessInfo::SetSpeed`: stores both current and pending speed and
forwards `SetSpeed(m_newTempo, speed)` to the cache. -/
def SetSpeed (p : CProcessInfo) (speed : ℚ) : CProcessInfo :=
  let q := { p with m_speed := speed, m_newSpeed := speed }
  q.withCache (fun c => { c with speedTempo := q.m_newTempo, speedSpeed := speed })

/-- `CProcessInfo::SetNewSpeed`: stores the pending speed and forwards
`SetSpeed(m_tempo, speed)` to the cache. -/
def SetNewSpeed (p : CProcessInfo) (speed : ℚ) : CProcessInfo :=
  let q := { p with m_newSpeed := speed }
  q.withCache (fun c => { c with speedTempo := q.m_tempo, speedSpeed := speed })

/-- `CProcessInfo::GetNewSpeed`. -/
def GetNewSpeed (p : CProcessInfo) : ℚ :=
  p.m_newSpeed

/-- `CProcessInfo::SetFrameAdvance` (forwards the argument). -/
def SetFrameAdvance (p : CProcessInfo) (fa : Bool) : CProcessInfo :=
  let q := { p with m_frameAdvance := fa }
  q.withCache (fun c => { c with frameAdvance := fa })

/-- `CProcessInfo::IsFrameAdvance`. -/
def IsFrameAdvance (p : CProcessInfo) : Bool :=
  p.m_frameAdvance

/-- `CProcessInfo::SetTempo`: stores both current and pending tempo and
forwards `SetSpeed(tempo, m_newSpeed)` to the cache. -/
def SetTempo (p : CProcessInfo) (tempo : ℚ) : CProcessInfo :=
  let q := { p with m_tempo := tempo, m_newTempo := tempo }
  q.withCache (fun c => { c with speedTempo := tempo, speedSpeed := q.m_newSpeed })

/-- `CProcessInfo::SetNewTempo`: stores the pending tempo and forwards
`SetSpeed(tempo, m_speed)` to the cache. -/
def SetNewTempo (p : CProcessInfo) (tempo : ℚ) : CProcessInfo :=
  let q := { p with m_newTempo := tempo }
  q.withCache (fun c => { c with speedTempo := tempo, speedSpeed := q.m_speed })

/-- `CProcessInfo::GetNewTempo`. -/
def GetNewTempo (p : CProcessInfo) : ℚ :=
  p.m_newTempo

/-- `CProcessInfo::MinTempoPlatform` (base implementation). -/
def MinTempoPlatform : ℚ :=
  0.75

/-- `CProcessInfo::MaxTempoPlatform` (base implementation). -/
def MaxTempoPlatform : ℚ :=
  1.55

/-- `CProcessInfo::IsTempoAllowed`. The administrator-configured
`CAdvancedSettings::m_maxTempo` is an external input, passed explicitly. -/
def IsTempoAllowed (m_maxTempo : ℚ) (tempo : ℚ) : Bool :=
  if tempo > MinTempoPlatform ∧ (tempo < MaxTempoPlatform ∨ tempo < m_maxTempo) then
    true
  else
    false

/-- `CProcessInfo::SetLevelVQ` (stores only; no lock, no forwarding). -/
def SetLevelVQ (p : CProcessInfo) (level : Int) : CProcessInfo :=
  { p with m_levelVQ := level }

/-- `CProcessInfo::GetLevelVQ`. -/
def GetLevelVQ (p : CProcessInfo) : Int :=
  p.m_levelVQ

/-- `CProcessInfo::SetGuiRender`: stores the flag and forwards it only
when the stored value actually changed. -/
def SetGuiRender (p : CProcessInfo) (gui : Bool) : CProcessInfo :=
  let change := p.m_renderGuiLayer ≠ gui
  let q := { p with m_renderGuiLayer := gui }
  if change then q.withCache (fun c => { c with guiRender := gui }) else q

/-- `CProcessInfo::GetGuiRender`. -/
def GetGuiRender (p : CProcessInfo) : Bool :=
  p.m_renderGuiLayer

/-- `CProcessInfo::SetVideoRender`: stores the flag and forwards it only
when the stored value actually changed. -/
def SetVideoRender (p : CProcessInfo) (video : Bool) : CProcessInfo :=
  let change := p.m_renderVideoLayer ≠ video
  let q := { p with m_renderVideoLayer := video }
  if change then q.withCache (fun c => { c with videoRender := video }) else q

/-- `CProcessInfo::GetVideoRender`. -/
def GetVideoRender (p : CProcessInfo) : Bool :=
  p.m_renderVideoLayer

/-- `CProcessInfo::SetPlayTimes`. -/
def SetPlayTimes (p : CProcessInfo) (start current min max : Int) : CProcessInfo :=
  let q := { p with m_startTime := start, m_time := current, m_timeMin := min, m_timeMax := max }
  q.withCache (fun c => { c with
    playTimesStart := start, playTimesCurrent := current, playTimesMin := min, playTimesMax := max })

/-- `CProcessInfo::GetMaxTime`. -/
def GetMaxTime (p : CProcessInfo) : Int :=
  p.m_timeMax

/-- `CProcessInfo::SetVideoSettings` (stores only; no forwarding). -/
def SetVideoSettings (p : CProcessInfo) (settings : CVideoSettings) : CProcessInfo :=
  { p with m_videoSettings := settings }

/-- `CProcessInfo::GetVideoSettings`. -/
def GetVideoSettings (p : CProcessInfo) : CVideoSettings :=
  p.m_videoSettings

end CProcessInfo

/-- A concrete cache value, used to instantiate theorems on explicit
inputs. -/
def cache0 : CDataCacheCore where
  videoPts := 0
  videoDecoderName := ""
  videoIsHWDecoder := false
  videoDeintMethod := ""
  videoPixelFormat := ""
  videoWidth := 0
  videoHeight := 0
  videoFps := 0
  videoDAR := 0
  stateSeeking := false
  videoStereoMode := ""
  videoBitDepth := 0
  videoHdrType := StreamHdrType.HDR_TYPE_NONE
  videoSourceHdrType := StreamHdrType.HDR_TYPE_NONE
  videoSourceAdditionalHdrType := StreamHdrType.HDR_TYPE_NONE
  videoColorSpace := AVColorSpace.AVCOL_SPC_UNSPECIFIED
  videoColorRange := AVColorRange.AVCOL_RANGE_UNSPECIFIED
  videoColorPrimaries := AVColorPrimaries.AVCOL_PRI_UNSPECIFIED
  videoColorTransferCharacteristic := AVColorTransferCharacteristic.AVCOL_TRC_UNSPECIFIED
  videoDoViFrameMetadata := {}
  videoDoViStreamMetadata := {}
  videoDoViStreamInfo := {}
  videoSourceDoViStreamInfo := {}
  videoDoViCodecFourCC := ""
  videoHDRStaticMetadataInfo := {}
  videoVS10Mode := 0
  videoLiveBitRate := 0
  videoQueueLevel := 0
  videoQueueDataLevel := 0
  videoInterlaced := false
  audioDecoderName := ""
  audioChannels := ""
  audioSampleRate := 0
  audioBitsPerSample := 0
  audioIsDolbyAtmos := false
  audioDtsXType := DtsXType.DTS_X_NONE
  audioLiveBitRate := 0
  audioQueueLevel := 0
  audioQueueDataLevel := 0
  renderClockSync := false
  stateRealtime := false
  speedTempo := 1
  speedSpeed := 1
  frameAdvance := false
  guiRender := false
  videoRender := false
  playTimesStart := 0
  playTimesCurrent := 0
  playTimesMin := 0
  playTimesMax := 0
  seekFinishedOffset := 0

/-- A concrete aggregator state with no cache bound. -/
def proc0 : CProcessInfo where
  m_dataCache := none
  m_videoPts := 0
  m_videoIsHWDecoder := false
  m_videoDecoderName := ""
  m_videoDeintMethod := ""
  m_videoPixelFormat := ""
  m_videoStereoMode := ""
  m_videoWidth := 0
  m_videoHeight := 0
  m_videoFPS := 0
  m_videoDAR := 0
  m_videoBitDepth := 0
  m_videoHdrType := StreamHdrType.HDR_TYPE_NONE
  m_videoSourceHdrType := StreamHdrType.HDR_TYPE_NONE
  m_videoSourceAdditionalHdrType := StreamHdrType.HDR_TYPE_NONE
  m_videoColorSpace := AVColorSpace.AVCOL_SPC_UNSPECIFIED
  m_videoColorRange := AVColorRange.AVCOL_RANGE_UNSPECIFIED
  m_videoColorPrimaries := AVColorPrimaries.AVCOL_PRI_UNSPECIFIED
  m_videoColorTransferCharacteristic := AVColorTransferCharacteristic.AVCOL_TRC_UNSPECIFIED
  m_videoDoViFrameMetadata := {}
  m_videoDoViStreamMetadata := {}
  m_videoDoViStreamInfo := {}
  m_videoSourceDoViStreamInfo := {}
  m_videoDoViCodecFourCC := ""
  m_videoHDRStaticMetadataInfo := {}
  m_videoVS10Mode := 0
  m_videoLiveBitRate := 0
  m_videoQueueLevel := 0
  m_videoQueueDataLevel := 0
  m_videoIsInterlaced := false
  m_deintMethods := []
  m_deintMethodDefault := EINTERLACEMETHOD.VS_INTERLACEMETHOD_NONE
  m_stateSeeking := false
  m_pixFormats := []
  m_renderInfo := {}
  m_audioDecoderName := ""
  m_audioChannels := ""
  m_audioSampleRate := 0
  m_audioBitsPerSample := 0
  m_audioIsDolbyAtmos := false
  m_audioDtsXType := DtsXType.DTS_X_NONE
  m_audioLiveBitRate := 0
  m_audioQueueLevel := 0
  m_audioQueueDataLevel := 0
  m_isClockSync := false
  m_renderBufQueued := 0
  m_renderBufDiscard := 0
  m_renderBufFree := 0
  m_realTimeStream := false
  m_speed := 1
  m_newSpeed := 1
  m_frameAdvance := false
  m_tempo := 1
  m_newTempo := 1
  m_levelVQ := 0
  m_renderGuiLayer := false
  m_renderVideoLayer := false
  m_startTime := 0
  m_time := 0
  m_timeMin := 0
  m_timeMax := 0
  m_videoSettings := {}

/-- The same concrete aggregator state with `cache0` bound. -/
def proc1 : CProcessInfo :=
  { proc0 with m_dataCache := some cache0 }

/-- C2: for every tempo `t` and configured maximum, `IsTempoAllowed(t)`
returns true iff `t > 0.75` and (`t < 1.55` or `t <` configured max);
equivalently the floor is the platform minimum 0.75 and the ceiling is
the larger of the platform maximum 1.55 and the configured override. -/
theorem C2_IsTempoAllowed_characterisation (m t : ℚ) :
    (CProcessInfo.IsTempoAllowed m t = true ↔ (0.75 < t ∧ (t < 1.55 ∨ t < m))) ∧
    (CProcessInfo.IsTempoAllowed m t = true ↔ (0.75 < t ∧ t < max 1.55 m)) := by
  constructor
  · simp [CProcessInfo.IsTempoAllowed, CProcessInfo.MinTempoPlatform,
      CProcessInfo.MaxTempoPlatform]
  · simp [CProcessInfo.IsTempoAllowed, CProcessInfo.MinTempoPlatform,
      CProcessInfo.MaxTempoPlatform, lt_max_iff]

/-- C5: for every prior state and every input list, immediately after
`UpdateDeinterlacingMethods` the call
`Supports(VS_INTERLACEMETHOD_NONE)` returns true. -/
theorem C5_supports_none_after_update (p : CProcessInfo)
    (methods : List EINTERLACEMETHOD) :
    (p.UpdateDeinterlacingMethods methods).Supports
      EINTERLACEMETHOD.VS_INTERLACEMETHOD_NONE = true := by
  by_cases h : EINTERLACEMETHOD.VS_INTERLACEMETHOD_NONE ∈
      CProcessInfo.mergeDeintMethods methods p.m_renderInfo.m_deintMethods <;>
    simp [CProcessInfo.UpdateDeinterlacingMethods, CProcessInfo.Supports, h]

/-- C6: if `VS_INTERLACEMETHOD_NONE` is absent from the merge of the
caller-supplied list with the render-reported capabilities, then after
`UpdateDeinterlacingMethods` it is the first element of the
supported-methods list. -/
theorem C6_none_first_when_absent (p : CProcessInfo)
    (methods : List EINTERLACEMETHOD)
    (h : EINTERLACEMETHOD.VS_INTERLACEMETHOD_NONE ∉
      CProcessInfo.mergeDeintMethods methods p.m_renderInfo.m_deintMethods) :
    (p.UpdateDeinterlacingMethods methods).m_deintMethods.head? =
      some EINTERLACEMETHOD.VS_INTERLACEMETHOD_NONE := by
  simp [CProcessInfo.UpdateDeinterlacingMethods, h]

/-- Witness for C6 at a concrete input: caller list `[DEINTERLACE_HALF]`,
render capabilities `[DEINTERLACE]`; `NONE` is absent from their merge
and ends up first. -/
theorem C6_none_first_when_absent_witness :
    (({ proc0 with
      m_renderInfo :=
        { m_deintMethods := [EINTERLACEMETHOD.VS_INTERLACEMETHOD_DEINTERLACE] } }
        : CProcessInfo).UpdateDeinterlacingMethods
          [EINTERLACEMETHOD.VS_INTERLACEMETHOD_DEINTERLACE_HALF]).m_deintMethods.head? =
      some EINTERLACEMETHOD.VS_INTERLACEMETHOD_NONE :=
  C6_none_first_when_absent _ _ (by decide)

/-- C8: after any `RegisterProcessControl(id, f)` the registry contains
exactly one entry, mapping `id` to `f`, regardless of the prior registry;
consequently `CreateInstance` consults at most that one factory (its
result is `f ()` when non-null, else the base instance). -/
theorem C8_registry_singleton {α : Type} (reg : List (String × (Unit → Option α)))
    (id : String) (f : Unit → Option α) (base : α) :
    CProcessInfo.RegisterProcessControl reg id f = [(id, f)] ∧
    (CProcessInfo.RegisterProcessControl reg id f).length = 1 ∧
    CProcessInfo.CreateInstance (CProcessInfo.RegisterProcessControl reg id f) base
      = (f ()).getD base := by
  refine ⟨rfl, rfl, ?_⟩
  cases hf : f () <;>
    simp [CProcessInfo.CreateInstance, CProcessInfo.RegisterProcessControl, hf]

/-- C9: `SetDataCache` dereferences the supplied cache pointer with no
null guard (a null argument is undefined behaviour, modelled as `none`),
while a non-null argument always succeeds; by contrast the mirroring
operations guard on a bound cache and complete without dereference when
none is bound. -/
theorem C9_setdatacache_null_deref (p : CProcessInfo) (c : CDataCacheCore) (v : ℚ) :
    p.SetDataCache none = none ∧
    (p.SetDataCache (some c)).isSome = true ∧
    (({ p with m_dataCache := none } : CProcessInfo).ResetVideoCodecInfo).m_dataCache = none ∧
    (({ p with m_dataCache := none } : CProcessInfo).SetVideoPts v).m_videoPts = v := by
  exact ⟨rfl, rfl, rfl, rfl⟩

/-- C10: `GetPixFormats` never returns an empty vector: with no stored
pixel formats (or an empty stored list) it returns the render-format
fallback singleton `[AV_PIX_FMT_YUV420P]`, otherwise the stored
(non-empty) list. -/
theorem C10_getpixformats_nonempty (p : CProcessInfo) :
    p.GetPixFormats ≠ [] ∧
    (p.m_pixFormats = [] → p.GetPixFormats = [AVPixelFormat.AV_PIX_FMT_YUV420P]) ∧
    (p.m_pixFormats ≠ [] → p.GetPixFormats = p.m_pixFormats) := by
  unfold CProcessInfo.GetPixFormats CProcessInfo.GetRenderFormats
  by_cases h : p.m_pixFormats = [] <;> simp [h]

/-- Witness for C10 at a concrete input: `proc0` stores no pixel formats,
so `GetPixFormats` returns the non-empty fallback. -/
theorem C10_getpixformats_nonempty_witness :
    proc0.GetPixFormats ≠ [] ∧
    proc0.GetPixFormats = [AVPixelFormat.AV_PIX_FMT_YUV420P] :=
  ⟨(C10_getpixformats_nonempty proc0).1, (C10_getpixformats_nonempty proc0).2.1 rfl⟩

/-- C4: for every prior state, `SetDataCache(new_cache)` (with a non-null
new cache) rebinds the mirror target to the new cache, sets both
render-layer flags to false, and broadcasts gui-render=false and
video-render=false to the newly bound cache, regardless of the prior
values of those flags (the state `p` is arbitrary, so in particular the
flags may already be false). The last conjunct shows the bound sink is
the supplied cache `c`: its channels not written by the call keep `c`'s
values. -/
theorem C4_setdatacache_rebroadcasts (p : CProcessInfo) (c : CDataCacheCore) :
    ((p.SetDataCache (some c)).map CProcessInfo.m_renderGuiLayer = some false) ∧
    ((p.SetDataCache (some c)).map CProcessInfo.m_renderVideoLayer = some false) ∧
    (((p.SetDataCache (some c)).bind CProcessInfo.m_dataCache).map
      CDataCacheCore.guiRender = some false) ∧
    (((p.SetDataCache (some c)).bind CProcessInfo.m_dataCache).map
      CDataCacheCore.videoRender = some false) ∧
    (((p.SetDataCache (some c)).bind CProcessInfo.m_dataCache).map
      CDataCacheCore.stateRealtime = some c.stateRealtime) :=
  ⟨rfl, rfl, rfl, rfl, rfl⟩

/-- Statement helper: an arbitrary aggregator state with the cache `c`
bound. Quantifying over `p0` and `c` ranges over exactly the states in
which a cache is currently bound. -/
def withBoundCache (p0 : CProcessInfo) (c : CDataCacheCore) : CProcessInfo :=
  { p0 with m_dataCache := some c }

/-- C1 counterexample: with a cache bound whose realtime channel holds
`false`, a completed `SetStateRealtime(true)` stores `true` but forwards
nothing, so the bound cache does not hold the value last stored for that
field — refuting the claim that every setter mirrors its value. -/
theorem C1_counterexample_realtime_not_mirrored :
    ((proc1.SetStateRealtime true).m_realTimeStream = true) ∧
    ((proc1.SetStateRealtime true).m_dataCache.map CDataCacheCore.stateRealtime = some false) ∧
    ((proc1.SetStateRealtime true).m_dataCache = proc1.m_dataCache) :=
  ⟨rfl, rfl, rfl⟩

/-- C1 (amended): with a cache bound, every setter stores its value and —
in the same atomic step — forwards the stored value to the bound cache,
so the cache then holds exactly the value last stored, EXCEPT:
`SetStateRealtime`, `SetLevelVQ`, `SetPixFormats`, `SetVideoSettings`,
`SetDeinterlacingMethodDefault` and `UpdateRenderBuffers` store without
forwarding (the bound cache is left unchanged), and `SetGuiRender` /
`SetVideoRender` forward only when the stored value changed, which still
leaves the cache holding the stored value whenever cache and field
agreed beforehand. Each conjunct characterises one setter on an
arbitrary state `withBoundCache p0 c` with the cache `c` bound. -/
theorem C1_amended_setters_mirror_under_bound_cache
    (p0 : CProcessInfo) (c : CDataCacheCore) (q1 : ℚ) (s : String)
    (b b0 g v : Bool) (i j k l : Int) (n : Nat) (hdr : StreamHdrType)
    (csp : AVColorSpace) (crg : AVColorRange) (cpr : AVColorPrimaries)
    (ctc : AVColorTransferCharacteristic) (dfm : DOVIFrameMetadata)
    (dsm : DOVIStreamMetadata) (dsi : DOVIStreamInfo)
    (hsm : HDRStaticMetadataInfo) (dx : DtsXType) (em : EINTERLACEMETHOD)
    (vset : CVideoSettings) (fs : List AVPixelFormat) :
    ((withBoundCache p0 c).SetVideoPts q1 =
      withBoundCache { p0 with m_videoPts := q1 } { c with videoPts := q1 }) ∧
    ((withBoundCache p0 c).SetVideoDecoderName s b =
      withBoundCache { p0 with m_videoIsHWDecoder := b, m_videoDecoderName := s }
        { c with videoDecoderName := s, videoIsHWDecoder := b }) ∧
    ((withBoundCache p0 c).SetVideoDeintMethod s =
      withBoundCache { p0 with m_videoDeintMethod := s } { c with videoDeintMethod := s }) ∧
    ((withBoundCache p0 c).SetVideoPixelFormat s =
      withBoundCache { p0 with m_videoPixelFormat := s } { c with videoPixelFormat := s }) ∧
    ((withBoundCache p0 c).SetVideoStereoMode s =
      withBoundCache { p0 with m_videoStereoMode := s } { c with videoStereoMode := s }) ∧
    ((withBoundCache p0 c).SetVideoDimensions i j =
      withBoundCache { p0 with m_videoWidth := i, m_videoHeight := j }
        { c with videoWidth := i, videoHeight := j }) ∧
    ((withBoundCache p0 c).SetVideoBitDepth i =
      withBoundCache { p0 with m_videoBitDepth := i } { c with videoBitDepth := i }) ∧
    ((withBoundCache p0 c).SetVideoHdrType hdr =
      withBoundCache { p0 with m_videoHdrType := hdr } { c with videoHdrType := hdr }) ∧
    ((withBoundCache p0 c).SetVideoSourceHdrType hdr =
      withBoundCache { p0 with m_videoSourceHdrType := hdr }
        { c with videoSourceHdrType := hdr }) ∧
    ((withBoundCache p0 c).SetVideoSourceAdditionalHdrType hdr =
      withBoundCache { p0 with m_videoSourceAdditionalHdrType := hdr }
        { c with videoSourceAdditionalHdrType := hdr }) ∧
    ((withBoundCache p0 c).SetVideoColorSpace csp =
      withBoundCache { p0 with m_videoColorSpace := csp } { c with videoColorSpace := csp }) ∧
    ((withBoundCache p0 c).SetVideoColorRange crg =
      withBoundCache { p0 with m_videoColorRange := crg } { c with videoColorRange := crg }) ∧
    ((withBoundCache p0 c).SetVideoColorPrimaries cpr =
      withBoundCache { p0 with m_videoColorPrimaries := cpr }
        { c with videoColorPrimaries := cpr }) ∧
    ((withBoundCache p0 c).SetVideoColorTransferCharacteristic ctc =
      withBoundCache { p0 with m_videoColorTransferCharacteristic := ctc }
        { c with videoColorTransferCharacteristic := ctc }) ∧
    ((withBoundCache p0 c).SetVideoDoViFrameMetadata dfm =
      withBoundCache { p0 with m_videoDoViFrameMetadata := dfm }
        { c with videoDoViFrameMetadata := dfm }) ∧
    ((withBoundCache p0 c).SetVideoDoViStreamMetadata dsm =
      withBoundCache { p0 with m_videoDoViStreamMetadata := dsm }
        { c with videoDoViStreamMetadata := dsm }) ∧
    ((withBoundCache p0 c).SetVideoDoViStreamInfo dsi =
      withBoundCache { p0 with m_videoDoViStreamInfo := dsi }
        { c with videoDoViStreamInfo := dsi }) ∧
    ((withBoundCache p0 c).SetVideoSourceDoViStreamInfo dsi =
      withBoundCache { p0 with m_videoSourceDoViStreamInfo := dsi }
        { c with videoSourceDoViStreamInfo := dsi }) ∧
    ((withBoundCache p0 c).SetVideoDoViCodecFourCC s =
      withBoundCache { p0 with m_videoDoViCodecFourCC := s }
        { c with videoDoViCodecFourCC := s }) ∧
    ((withBoundCache p0 c).SetVideoHDRStaticMetadataInfo hsm =
      withBoundCache { p0 with m_videoHDRStaticMetadataInfo := hsm }
        { c with videoHDRStaticMetadataInfo := hsm }) ∧
    ((withBoundCache p0 c).SetVideoVS10Mode n =
      withBoundCache { p0 with m_videoVS10Mode := n } { c with videoVS10Mode := n }) ∧
    ((withBoundCache p0 c).SetVideoLiveBitRate q1 =
      withBoundCache { p0 with m_videoLiveBitRate := q1 } { c with videoLiveBitRate := q1 }) ∧
    ((withBoundCache p0 c).SetVideoQueueLevel i =
      withBoundCache { p0 with m_videoQueueLevel := i } { c with videoQueueLevel := i }) ∧
    ((withBoundCache p0 c).SetVideoQueueDataLevel i =
      withBoundCache { p0 with m_videoQueueDataLevel := i } { c with videoQueueDataLevel := i }) ∧
    ((withBoundCache p0 c).SetVideoFps q1 =
      withBoundCache { p0 with m_videoFPS := q1 } { c with videoFps := q1 }) ∧
    ((withBoundCache p0 c).SetVideoDAR q1 =
      withBoundCache { p0 with m_videoDAR := q1 } { c with videoDAR := q1 }) ∧
    ((withBoundCache p0 c).SetVideoInterlaced b =
      withBoundCache { p0 with m_videoIsInterlaced := b } { c with videoInterlaced := b }) ∧
    ((withBoundCache p0 c).SetAudioDecoderName s =
      withBoundCache { p0 with m_audioDecoderName := s } { c with audioDecoderName := s }) ∧
    ((withBoundCache p0 c).SetAudioChannels s =
      withBoundCache { p0 with m_audioChannels := s } { c with audioChannels := s }) ∧
    ((withBoundCache p0 c).SetAudioSampleRate i =
      withBoundCache { p0 with m_audioSampleRate := i } { c with audioSampleRate := i }) ∧
    ((withBoundCache p0 c).SetAudioBitsPerSample i =
      withBoundCache { p0 with m_audioBitsPerSample := i } { c with audioBitsPerSample := i }) ∧
    ((withBoundCache p0 c).SetAudioIsDolbyAtmos b =
      withBoundCache { p0 with m_audioIsDolbyAtmos := b } { c with audioIsDolbyAtmos := b }) ∧
    ((withBoundCache p0 c).SetAudioDtsXType dx =
      withBoundCache { p0 with m_audioDtsXType := dx } { c with audioDtsXType := dx }) ∧
    ((withBoundCache p0 c).SetAudioLiveBitRate q1 =
      withBoundCache { p0 with m_audioLiveBitRate := q1 } { c with audioLiveBitRate := q1 }) ∧
    ((withBoundCache p0 c).SetAudioQueueLevel i =
      withBoundCache { p0 with m_audioQueueLevel := i } { c with audioQueueLevel := i }) ∧
    ((withBoundCache p0 c).SetAudioQueueDataLevel i =
      withBoundCache { p0 with m_audioQueueDataLevel := i } { c with audioQueueDataLevel := i }) ∧
    ((withBoundCache p0 c).SetRenderClockSync b =
      withBoundCache { p0 with m_isClockSync := b } { c with renderClockSync := b }) ∧
    ((withBoundCache p0 c).SetStateSeeking b =
      withBoundCache { p0 with m_stateSeeking := b } { c with stateSeeking := b }) ∧
    ((withBoundCache p0 c).SetSpeed q1 =
      withBoundCache { p0 with m_speed := q1, m_newSpeed := q1 }
        { c with speedTempo := p0.m_newTempo, speedSpeed := q1 }) ∧
    ((withBoundCache p0 c).SetNewSpeed q1 =
      withBoundCache { p0 with m_newSpeed := q1 }
        { c with speedTempo := p0.m_tempo, speedSpeed := q1 }) ∧
    ((withBoundCache p0 c).SetTempo q1 =
      withBoundCache { p0 with m_tempo := q1, m_newTempo := q1 }
        { c with speedTempo := q1, speedSpeed := p0.m_newSpeed }) ∧
    ((withBoundCache p0 c).SetNewTempo q1 =
      withBoundCache { p0 with m_newTempo := q1 }
        { c with speedTempo := q1, speedSpeed := p0.m_speed }) ∧
    ((withBoundCache p0 c).SetFrameAdvance b =
      withBoundCache { p0 with m_frameAdvance := b } { c with frameAdvance := b }) ∧
    ((withBoundCache p0 c).SetPlayTimes i j k l =
      withBoundCache { p0 with m_startTime := i, m_time := j, m_timeMin := k, m_timeMax := l }
        { c with
          playTimesStart := i
          playTimesCurrent := j
          playTimesMin := k
          playTimesMax := l }) ∧
    ((withBoundCache p0 c).SeekFinished i =
      withBoundCache p0 { c with seekFinishedOffset := i }) ∧
    ((withBoundCache p0 c).SetStateRealtime b =
      withBoundCache { p0 with m_realTimeStream := b } c) ∧
    ((withBoundCache p0 c).SetLevelVQ i =
      withBoundCache { p0 with m_levelVQ := i } c) ∧
    ((withBoundCache p0 c).SetPixFormats fs =
      withBoundCache { p0 with m_pixFormats := fs } c) ∧
    ((withBoundCache p0 c).SetVideoSettings vset =
      withBoundCache { p0 with m_videoSettings := vset } c) ∧
    ((withBoundCache p0 c).SetDeinterlacingMethodDefault em =
      withBoundCache { p0 with m_deintMethodDefault := em } c) ∧
    ((withBoundCache p0 c).UpdateRenderBuffers i j k =
      withBoundCache
        { p0 with m_renderBufQueued := i, m_renderBufDiscard := j, m_renderBufFree := k } c) ∧
    (((withBoundCache { p0 with m_renderGuiLayer := b0 }
        { c with guiRender := b0 }).SetGuiRender g).m_renderGuiLayer = g ∧
      ((withBoundCache { p0 with m_renderGuiLayer := b0 }
        { c with guiRender := b0 }).SetGuiRender g).m_dataCache.map
          CDataCacheCore.guiRender = some g) ∧
    (((withBoundCache { p0 with m_renderVideoLayer := b0 }
        { c with videoRender := b0 }).SetVideoRender v).m_renderVideoLayer = v ∧
      ((withBoundCache { p0 with m_renderVideoLayer := b0 }
        { c with videoRender := b0 }).SetVideoRender v).m_dataCache.map
          CDataCacheCore.videoRender = some v) :=
  ⟨rfl, rfl, rfl, rfl, rfl, rfl, rfl, rfl, rfl, rfl,
   rfl, rfl, rfl, rfl, rfl, rfl, rfl, rfl, rfl, rfl,
   rfl, rfl, rfl, rfl, rfl, rfl, rfl, rfl, rfl, rfl,
   rfl, rfl, rfl, rfl, rfl, rfl, rfl, rfl, rfl, rfl,
   rfl, rfl, rfl, rfl, rfl, rfl, rfl, rfl, rfl, rfl, rfl,
   by cases b0 <;> cases g <;>
     simp [CProcessInfo.SetGuiRender, withBoundCache, CProcessInfo.withCache],
   by cases b0 <;> cases v <;>
     simp [CProcessInfo.SetVideoRender, withBoundCache, CProcessInfo.withCache]⟩

/-- C3 counterexample: with a cache bound, set the interlaced flag to
true (mirrored to the cache), then call `ResetVideoCodecInfo`: the field
is reset to false but the cache still holds true, so not every reset
video field is re-mirrored; moreover the video-group field
`m_videoDoViStreamMetadata` is not restored to its default at all. -/
theorem C3_counterexample_reset_skips_interlaced_mirror :
    (((proc1.SetVideoInterlaced true).ResetVideoCodecInfo).m_videoIsInterlaced = false) ∧
    (((proc1.SetVideoInterlaced true).ResetVideoCodecInfo).m_dataCache.map
      CDataCacheCore.videoInterlaced = some true) ∧
    (((proc1.SetVideoDoViStreamMetadata ⟨5⟩).ResetVideoCodecInfo).m_videoDoViStreamMetadata
      = ⟨5⟩) :=
  ⟨rfl, rfl, rfl⟩

/-- C3 (amended): on any state with a cache bound, `ResetVideoCodecInfo`
restores every video-group field it touches to its documented default
("unknown" strings, zero numerics, HDR-none / unspecified enums, cleared
metadata, deinterlace list `[NONE]`) and re-mirrors those defaults to the
cache — with two exceptions, visible in the right-hand side: the
interlaced flag is reset but NOT forwarded (the cache keeps
`c.videoInterlaced`), and `m_videoDoViStreamMetadata` is not reset (it
keeps `p0.m_videoDoViStreamMetadata`). -/
theorem C3_amended_reset_video_codec_info (p0 : CProcessInfo) (c : CDataCacheCore) :
    (withBoundCache p0 c).ResetVideoCodecInfo =
      withBoundCache
        { p0 with
          m_videoPts := 0
          m_videoIsHWDecoder := false
          m_videoDecoderName := "unknown"
          m_videoDeintMethod := "unknown"
          m_videoPixelFormat := "unknown"
          m_videoStereoMode := ""
          m_videoWidth := 0
          m_videoHeight := 0
          m_videoFPS := 0
          m_videoDAR := 0
          m_videoBitDepth := 0
          m_videoHdrType := StreamHdrType.HDR_TYPE_NONE
          m_videoSourceHdrType := StreamHdrType.HDR_TYPE_NONE
          m_videoSourceAdditionalHdrType := StreamHdrType.HDR_TYPE_NONE
          m_videoColorSpace := AVColorSpace.AVCOL_SPC_UNSPECIFIED
          m_videoColorRange := AVColorRange.AVCOL_RANGE_UNSPECIFIED
          m_videoColorPrimaries := AVColorPrimaries.AVCOL_PRI_UNSPECIFIED
          m_videoColorTransferCharacteristic := AVColorTransferCharacteristic.AVCOL_TRC_UNSPECIFIED
          m_videoDoViFrameMetadata := {}
          m_videoDoViStreamInfo := {}
          m_videoSourceDoViStreamInfo := {}
          m_videoDoViCodecFourCC := ""
          m_videoHDRStaticMetadataInfo := {}
          m_videoVS10Mode := DOLBY_VISION_OUTPUT_MODE_BYPASS
          m_videoLiveBitRate := 0
          m_videoQueueLevel := 0
          m_videoQueueDataLevel := 0
          m_videoIsInterlaced := false
          m_deintMethods := [EINTERLACEMETHOD.VS_INTERLACEMETHOD_NONE]
          m_deintMethodDefault := EINTERLACEMETHOD.VS_INTERLACEMETHOD_NONE
          m_stateSeeking := false }
        { c with
          videoPts := 0
          videoDecoderName := "unknown"
          videoIsHWDecoder := false
          videoDeintMethod := "unknown"
          videoPixelFormat := "unknown"
          videoWidth := 0
          videoHeight := 0
          videoFps := 0
          videoDAR := 0
          stateSeeking := false
          videoStereoMode := ""
          videoBitDepth := 0
          videoHdrType := StreamHdrType.HDR_TYPE_NONE
          videoSourceHdrType := StreamHdrType.HDR_TYPE_NONE
          videoSourceAdditionalHdrType := StreamHdrType.HDR_TYPE_NONE
          videoColorSpace := AVColorSpace.AVCOL_SPC_UNSPECIFIED
          videoColorRange := AVColorRange.AVCOL_RANGE_UNSPECIFIED
          videoColorPrimaries := AVColorPrimaries.AVCOL_PRI_UNSPECIFIED
          videoColorTransferCharacteristic := AVColorTransferCharacteristic.AVCOL_TRC_UNSPECIFIED
          videoDoViFrameMetadata := {}
          videoDoViStreamInfo := {}
          videoSourceDoViStreamInfo := {}
          videoDoViCodecFourCC := ""
          videoHDRStaticMetadataInfo := {}
          videoVS10Mode := DOLBY_VISION_OUTPUT_MODE_BYPASS
          videoLiveBitRate := 0
          videoQueueLevel := 0
          videoQueueDataLevel := 0 } :=
  rfl

/-- C7 counterexample: the setter/getter pair for the pixel-format list
does not round-trip on the empty value: after `SetPixFormats([])`,
`GetPixFormats()` returns the render-format fallback `[AV_PIX_FMT_YUV420P]`,
not the stored empty list — refuting the claim for that pair. -/
theorem C7_counterexample_pixformats_empty :
    ((proc0.SetPixFormats []).GetPixFormats ≠ ([] : List AVPixelFormat)) ∧
    ((proc0.SetPixFormats []).GetPixFormats = [AVPixelFormat.AV_PIX_FMT_YUV420P]) :=
  ⟨by decide, rfl⟩

/-- C7 (amended): for every setter/getter pair of the aggregator,
`Get<Field>()` immediately after `Set<Field>(v)` returns `v` — including
the pairs whose setter and getter use different lock sections
(`SetStateSeeking`/`IsSeeking`, `SetStateRealtime`/`IsRealtimeStream`) —
with one exception: the pixel-format pair round-trips only for a
non-empty list `fs` (for the empty list the getter returns the
render-format fallback instead). -/
theorem C7_amended_set_get_roundtrip (p : CProcessInfo)
    (fs : List AVPixelFormat) (hfs : fs ≠ []) (q1 : ℚ) (s : String)
    (b : Bool) (i j k l : Int) (n : Nat) (hdr : StreamHdrType)
    (csp : AVColorSpace) (crg : AVColorRange) (cpr : AVColorPrimaries)
    (ctc : AVColorTransferCharacteristic) (dfm : DOVIFrameMetadata)
    (dsm : DOVIStreamMetadata) (dsi : DOVIStreamInfo)
    (hsm : HDRStaticMetadataInfo) (dx : DtsXType) (em : EINTERLACEMETHOD)
    (vset : CVideoSettings) :
    ((p.SetPixFormats fs).GetPixFormats = fs) ∧
    ((p.SetVideoPts q1).GetVideoPts = q1) ∧
    ((p.SetVideoDecoderName s b).GetVideoDecoderName = s) ∧
    ((p.SetVideoDecoderName s b).IsVideoHwDecoder = b) ∧
    ((p.SetVideoDeintMethod s).GetVideoDeintMethod = s) ∧
    ((p.SetVideoPixelFormat s).GetVideoPixelFormat = s) ∧
    ((p.SetVideoStereoMode s).GetVideoStereoMode = s) ∧
    ((p.SetVideoDimensions i j).GetVideoDimensions = (i, j)) ∧
    ((p.SetVideoBitDepth i).GetVideoBitDepth = i) ∧
    ((p.SetVideoHdrType hdr).GetVideoHdrType = hdr) ∧
    ((p.SetVideoSourceHdrType hdr).GetVideoSourceHdrType = hdr) ∧
    ((p.SetVideoSourceAdditionalHdrType hdr).GetVideoSourceAdditionalHdrType = hdr) ∧
    ((p.SetVideoColorSpace csp).GetVideoColorSpace = csp) ∧
    ((p.SetVideoColorRange crg).GetVideoColorRange = crg) ∧
    ((p.SetVideoColorPrimaries cpr).GetVideoColorPrimaries = cpr) ∧
    ((p.SetVideoColorTransferCharacteristic ctc).GetVideoColorTransferCharacteristic = ctc) ∧
    ((p.SetVideoDoViFrameMetadata dfm).GetVideoDoViFrameMetadata = dfm) ∧
    ((p.SetVideoDoViStreamMetadata dsm).GetVideoDoViStreamMetadata = dsm) ∧
    ((p.SetVideoDoViStreamInfo dsi).GetVideoDoViStreamInfo = dsi) ∧
    ((p.SetVideoSourceDoViStreamInfo dsi).GetVideoSourceDoViStreamInfo = dsi) ∧
    ((p.SetVideoDoViCodecFourCC s).GetVideoDoViCodecFourCC = s) ∧
    ((p.SetVideoHDRStaticMetadataInfo hsm).GetVideoHDRStaticMetadataInfo = hsm) ∧
    ((p.SetVideoVS10Mode n).GetVideoVS10Mode = n) ∧
    ((p.SetVideoLiveBitRate q1).GetVideoLiveBitRate = q1) ∧
    ((p.SetVideoQueueLevel i).GetVideoQueueLevel = i) ∧
    ((p.SetVideoQueueDataLevel i).GetVideoQueueDataLevel = i) ∧
    ((p.SetVideoFps q1).GetVideoFps = q1) ∧
    ((p.SetVideoDAR q1).GetVideoDAR = q1) ∧
    ((p.SetVideoInterlaced b).GetVideoInterlaced = b) ∧
    ((p.SetDeinterlacingMethodDefault em).GetDeinterlacingMethodDefault = em) ∧
    ((p.SetAudioDecoderName s).GetAudioDecoderName = s) ∧
    ((p.SetAudioChannels s).GetAudioChannels = s) ∧
    ((p.SetAudioSampleRate i).GetAudioSampleRate = i) ∧
    ((p.SetAudioBitsPerSample i).GetAudioBitsPerSample = i) ∧
    ((p.SetAudioIsDolbyAtmos b).GetAudioIsDolbyAtmos = b) ∧
    ((p.SetAudioDtsXType dx).GetAudioDtsXType = dx) ∧
    ((p.SetAudioLiveBitRate q1).GetAudioLiveBitRate = q1) ∧
    ((p.SetAudioQueueLevel i).GetAudioQueueLevel = i) ∧
    ((p.SetAudioQueueDataLevel i).GetAudioQueueDataLevel = i) ∧
    ((p.SetRenderClockSync b).IsRenderClockSync = b) ∧
    ((p.UpdateRenderBuffers i j k).GetRenderBuffers = (i, j, k)) ∧
    ((p.SetStateSeeking b).IsSeeking = b) ∧
    ((p.SetStateRealtime b).IsRealtimeStream = b) ∧
    ((p.SetNewSpeed q1).GetNewSpeed = q1) ∧
    ((p.SetFrameAdvance b).IsFrameAdvance = b) ∧
    ((p.SetNewTempo q1).GetNewTempo = q1) ∧
    ((p.SetLevelVQ i).GetLevelVQ = i) ∧
    ((p.SetGuiRender b).GetGuiRender = b) ∧
    ((p.SetVideoRender b).GetVideoRender = b) ∧
    ((p.SetPlayTimes i j k l).GetMaxTime = l) ∧
    ((p.SetVideoSettings vset).GetVideoSettings = vset) :=
  ⟨by simp [CProcessInfo.SetPixFormats, CProcessInfo.GetPixFormats, hfs],
   rfl, rfl, rfl, rfl, rfl, rfl, rfl, rfl, rfl,
   rfl, rfl, rfl, rfl, rfl, rfl, rfl, rfl, rfl, rfl,
   rfl, rfl, rfl, rfl, rfl, rfl, rfl, rfl, rfl, rfl,
   rfl, rfl, rfl, rfl, rfl, rfl, rfl, rfl, rfl, rfl,
   rfl, rfl, rfl, rfl, rfl, rfl, rfl,
   by by_cases hb : p.m_renderGuiLayer = b <;>
     simp [CProcessInfo.SetGuiRender, CProcessInfo.GetGuiRender, CProcessInfo.withCache, hb],
   by by_cases hb : p.m_renderVideoLayer = b <;>
     simp [CProcessInfo.SetVideoRender, CProcessInfo.GetVideoRender, CProcessInfo.withCache, hb],
   rfl, rfl⟩

/-- Witness for C7 (amended) at concrete inputs: storing the non-empty
pixel-format list `[AV_PIX_FMT_YUV420P]` round-trips through
`GetPixFormats`. -/
theorem C7_amended_set_get_roundtrip_witness :
    (proc0.SetPixFormats [AVPixelFormat.AV_PIX_FMT_YUV420P]).GetPixFormats
      = [AVPixelFormat.AV_PIX_FMT_YUV420P] :=
  (C7_amended_set_get_roundtrip proc0 [AVPixelFormat.AV_PIX_FMT_YUV420P] (by decide)
    0 "" false 0 0 0 0 0 StreamHdrType.HDR_TYPE_NONE
    AVColorSpace.AVCOL_SPC_UNSPECIFIED AVColorRange.AVCOL_RANGE_UNSPECIFIED
    AVColorPrimaries.AVCOL_PRI_UNSPECIFIED AVColorTransferCharacteristic.AVCOL_TRC_UNSPECIFIED
    ⟨0⟩ ⟨0⟩ ⟨0⟩ ⟨0⟩ DtsXType.DTS_X_NONE
    EINTERLACEMETHOD.VS_INTERLACEMETHOD_NONE ⟨0⟩).1
